import Mathlib

/-!
# Submission handler of `backend/server.js`

A shallow embedding of the single source file of the repository: the start-up
gate on the mail credentials, the CORS origin callback, the upload
configuration (storage file name, size limit, file filter) and the
`POST /api/submit-form` handler.  Side effects (log lines, the mail send, the
HTTP response, files written under `uploads/`) are recorded as a list of
`Effect`s in program order.
-/

namespace Modvisor

/-! ## JavaScript values used by the program -/

/-- JavaScript truthiness of a value that is either `undefined` (`none`) or a
string: `undefined` and the empty string are falsy, every other string is
truthy.  This is the meaning of `!x` on `process.env.X` and on the `Origin`
header. -/
def truthy : Option String → Bool
  | none => false
  | some s => s != ""

/-- Conversion performed by a template literal `${x}` (and by `"..." + x`) on a
value that is `undefined` or a string. -/
def render : Option String → String
  | none => "undefined"
  | some s => s

/-- `String.prototype.startsWith`: `pre` is an initial segment of `s`. -/
def startsWith (s pre : String) : Bool :=
  pre.toList.isPrefixOf s.toList

/-! ## Start-up (lines 9-18, 20-41, 104-107) -/

/-- The environment variables read by the program, after `dotenv.config()`. -/
structure Env where
  EMAIL_USER : Option String
  EMAIL_PASS : Option String
  PORT : Option String
  deriving DecidableEq, Repr

/-- Observable steps of the top-level script. -/
inductive StartupStep where
  | consoleError (line : String)
  | exit (code : Nat)
  | useCors
  | useUrlencoded
  | useJson
  | ensureUploadDir
  | post (route : String)
  | listen (port : String)
  deriving DecidableEq, Repr

/-- `process.env.PORT || 5001`. -/
def PORT (env : Env) : String :=
  if truthy env.PORT then render env.PORT else "5001"

/-- The top-level script in program order.  `process.exit(1)` ends the script,
so nothing after line 17 runs when the credentials check fails. -/
def startup (env : Env) : List StartupStep :=
  if !truthy env.EMAIL_USER || !truthy env.EMAIL_PASS then
    [StartupStep.consoleError "Missing required environment variables. Check your .env file.",
     StartupStep.exit 1]
  else
    [StartupStep.useCors, StartupStep.useUrlencoded, StartupStep.useJson,
     StartupStep.ensureUploadDir, StartupStep.post "/api/submit-form",
     StartupStep.listen (PORT env)]

/-! ## CORS (lines 20-32) -/

/-- The configured list of allowed origins. -/
def allowedOrigins : List String := ["https://www.modvisorconsultants.com"]

/-- `Array.prototype.includes` on the allowed origins. -/
def includes (xs : List String) (x : String) : Bool := xs.contains x

/-- The `origin` callback handed to `cors`: `callback(null, true)` is
`Except.ok true`, `callback(new Error(m))` is `Except.error m`. -/
def corsOrigin (origin : Option String) : Except String Bool :=
  if !truthy origin || (match origin with
                        | some o => includes allowedOrigins o
                        | none => false) then
    Except.ok true
  else
    Except.error "CORS not allowed for this origin"

/-! ## Numbers (line 47)

JavaScript numbers are IEEE 754 binary64 values.  The values that occur on
line 47 are non-negative and far below the overflow threshold, so a number is
represented by the rational it denotes. -/

/-- Round to the nearest integer, ties to the even one. -/
def roundTiesEven (q : ℚ) : ℤ :=
  if q - ⌊q⌋ < 1 / 2 then ⌊q⌋
  else if 1 / 2 < q - ⌊q⌋ then ⌊q⌋ + 1
  else if ⌊q⌋ % 2 = 0 then ⌊q⌋ else ⌊q⌋ + 1

/-- Exponent of the spacing of binary64 values around `q`: 52 binary places
below the leading bit, and never below the subnormal spacing `2 ^ (-1074)`. -/
def ulpExp (q : ℚ) : ℤ := max (Int.log 2 q - 52) (-1074)

/-- Round-to-nearest-even of a real `0 ≤ q < 2 ^ 1024` to binary64. -/
def toDouble (q : ℚ) : ℚ := roundTiesEven (q / 2 ^ ulpExp q) * 2 ^ ulpExp q

/-- The `*` operator on two non-negative numbers. -/
def mul (a b : ℚ) : ℚ := toDouble (a * b)

/-- `Math.round`: the nearest integer, a tie going to the larger one. -/
def round (x : ℚ) : ℤ := ⌊x + 1 / 2⌋

/-- String conversion of an integral number of magnitude below `10 ^ 21`
(what `… + "-"` applies to its left operand): plain decimal digits. -/
def numberToString (n : ℤ) : String := toString n

/-! ## Upload configuration (lines 37-61) -/

/-- The multipart part named `resume` as the upload layer sees it. -/
structure Upload where
  originalname : String
  mimetype : String
  size : Nat
  deriving DecidableEq, Repr

/-- The file object `req.file` once the upload layer has stored the part. -/
structure StoredFile where
  originalname : String
  mimetype : String
  size : Nat
  filename : String
  path : String
  deriving DecidableEq, Repr

/-- `path.join(__dirname, "uploads")`. -/
def uploadPath (dirname : String) : String := dirname ++ "/uploads"

/-- The `filename` option of the disk storage.  `now` is the value of
`Date.now()` and `random` the value of `Math.random()` (a binary64 value with
`0 ≤ random < 1`) at the call. -/
def filename (now : ℕ) (random : ℚ) (originalname : String) : String :=
  let uniqueSuffix := numberToString now ++ "-" ++ numberToString (round (mul random 1000000000))
  uniqueSuffix ++ "-" ++ originalname

/-- `limits.fileSize`. -/
def fileSize : Nat := 5 * 1024 * 1024

/-- The `fileFilter` option: `cb(new Error(m), false)` is `Except.error m`,
`cb(null, true)` is `Except.ok true`. -/
def fileFilter (file : Upload) : Except String Bool :=
  if !startsWith file.mimetype "application/pdf" then
    Except.error "Only PDF files are allowed!"
  else
    Except.ok true

/-! ## The handler (lines 63-102) -/

/-- The text fields of the object `req.body`; a field that was not sent is
`undefined`.  `req.body` itself is an `Option Body`: it is `undefined` when no
body parser produced an object. -/
structure Body where
  name : Option String
  number : Option String
  email : Option String
  subject : Option String
  message : Option String
  deriving DecidableEq, Repr

/-- One entry of `mailOptions.attachments`. -/
structure Attachment where
  filename : String
  path : String
  deriving DecidableEq, Repr

/-- The object handed to `transporter.sendMail`. -/
structure MailOptions where
  from_ : Option String
  to_ : Option String
  subject : String
  text : String
  attachments : List Attachment
  deriving DecidableEq, Repr

/-- A thrown `Error`: the handler reads only `message`. -/
structure JsError where
  message : String
  stack : String
  deriving DecidableEq, Repr

/-- The value `sendMail` resolves to; the handler reads only `response`. -/
structure SentInfo where
  response : String
  deriving DecidableEq, Repr

deriving instance DecidableEq for Except

/-- A JSON object with string values, in key order. -/
abbrev Json := List (String × String)

/-- Side effects of serving one request, in program order.  `next` is an error
handed to the framework (`callback(err)` / `cb(err)`); the program registers no
error-handling middleware, so no code of the program answers such a request. -/
inductive Effect where
  | consoleLog (line : String)
  | consoleError (line : String)
  | sendMail (opts : MailOptions)
  | respond (status : Nat) (body : Json)
  | writeFile (path : String)
  | unlink (path : String)
  | next (err : String)
  deriving DecidableEq, Repr

/-- The mail options built on lines 85-91. -/
def mailOptions (env : Env) (body : Body) (resume : StoredFile) : MailOptions :=
  { from_ := env.EMAIL_USER
    to_ := env.EMAIL_USER
    subject := "New Submission: " ++ render body.subject
    text := "Name: " ++ render body.name ++ "\nNumber: " ++ render body.number ++
      "\nEmail: " ++ render body.email ++ "\nMessage: " ++ render body.message
    attachments := [{ filename := resume.originalname, path := resume.path }] }

/-- The `TypeError` thrown by the destructuring on line 75 when `req.body` is
`undefined`, with the message the engine gives it. -/
def destructureError : JsError :=
  ⟨"Cannot destructure property \x27name\x27 of \x27req.body\x27 as it is undefined.",
   "TypeError: Cannot destructure property \x27name\x27 of \x27req.body\x27 as it is undefined."⟩

/-- The route handler on the values of `req.body` and `req.file`.  Line 75
destructures `req.body` inside the `try`, before the file check of line 78:
when `req.body` is `undefined` it throws and the `catch` of lines 98-101
answers.  `send` is the outcome of awaiting
`transporter.sendMail(mailOptions)`: a resolved info object or a thrown error.
`res.json` without `res.status` answers with status 200. -/
def submitForm (env : Env) (send : MailOptions → Except JsError SentInfo)
    (parsed : Option Body) (file : Option StoredFile) : List Effect :=
  match parsed with
  | none =>
    [Effect.consoleError ("Error: " ++ destructureError.message),
     Effect.respond 500 [("message", "Server error"), ("error", destructureError.message)]]
  | some body =>
    match file with
    | none => [Effect.respond 400 [("message", "Resume file is required")]]
    | some resume =>
      let opts := mailOptions env body resume
      match send opts with
      | Except.ok info =>
        [Effect.consoleLog "Received Form:", Effect.sendMail opts,
         Effect.consoleLog ("Email sent: " ++ info.response),
         Effect.respond 200 [("message", "Form submitted and email sent successfully!")]]
      | Except.error error =>
        [Effect.consoleLog "Received Form:", Effect.sendMail opts,
         Effect.consoleError ("Error: " ++ error.message),
         Effect.respond 500 [("message", "Server error"), ("error", error.message)]]

/-! ## The request pipeline (lines 22-32, 73) -/

/-- Modelled from the spec: the upload library's enforcement of
`limits.fileSize`, which is library code and not part of the repository's
source.  The spec's input constraint is "the file's byte size must not exceed
5 MiB", so a part is within the limit when its size is at most the limit. -/
def withinLimit (limit size : ℕ) : Bool := decide (size ≤ limit)

/-- The middleware `upload.single("resume")` on the part named `resume`, if
any: the filter is consulted first, then the part is stored under the generated
name in the upload directory; a part over the size limit is removed again and
the request fails with the library's error.  The result is the effects on the
disk and either the error handed to the framework or the value of `req.file`. -/
def single (dirname : String) (now : ℕ) (random : ℚ) :
    Option Upload → List Effect × Except String (Option StoredFile)
  | none => ([], Except.ok none)
  | some file =>
    match fileFilter file with
    | Except.error err => ([], Except.error err)
    | Except.ok _ =>
      let name := filename now random file.originalname
      let path := uploadPath dirname ++ "/" ++ name
      if withinLimit fileSize file.size then
        ([Effect.writeFile path],
         Except.ok (some { originalname := file.originalname, mimetype := file.mimetype,
                           size := file.size, filename := name, path := path }))
      else
        ([Effect.writeFile path, Effect.unlink path], Except.error "File too large")

/-- One `POST /api/submit-form` request as the program sees it: the `Origin`
header, the body object left by the body parsers (`undefined` when none of
them parsed a body) and the part named `resume`, if any. -/
structure Request where
  origin : Option String
  body : Option Body
  resume : Option Upload
  deriving DecidableEq, Repr

/-- The value of `req.body` when the handler runs.  A request that carries a
part is multipart, and the upload middleware creates the body object of a
multipart request before it reads the parts; otherwise `req.body` is what the
body parsers left. -/
def reqBody (req : Request) : Option Body :=
  match req.resume with
  | some _ => some (req.body.getD ⟨none, none, none, none, none⟩)
  | none => req.body

/-- The middleware chain for one request: `cors`, then `upload.single`, then
the handler.  An error given to a callback skips the rest of the chain. -/
def handleRequest (env : Env) (dirname : String) (send : MailOptions → Except JsError SentInfo)
    (now : ℕ) (random : ℚ) (req : Request) : List Effect :=
  match corsOrigin req.origin with
  | Except.error err => [Effect.next err]
  | Except.ok _ =>
    match single dirname now random req.resume with
    | (fx, Except.error err) => fx ++ [Effect.next err]
    | (fx, Except.ok file) => fx ++ submitForm env send (reqBody req) file

/-- The files under `uploads/` after one effect. -/
def applyEffect (disk : List String) : Effect → List String
  | Effect.writeFile path => path :: disk
  | Effect.unlink path => disk.filter (fun p => p != path)
  | _ => disk

/-- The files under `uploads/` after a run. -/
def diskAfter (disk : List String) (fx : List Effect) : List String :=
  fx.foldl applyEffect disk

/-- The response, if any, that the program itself writes during a run. -/
def response : List Effect → Option (ℕ × Json)
  | [] => none
  | Effect.respond status body :: _ => some (status, body)
  | _ :: fx => response fx

/-- The number of `sendMail` calls in a run. -/
def sendCount (fx : List Effect) : ℕ :=
  (fx.filter (fun e => match e with
                       | Effect.sendMail _ => true
                       | _ => false)).length

/-! ## Scenario values

The end-to-end scenarios of the specification, as concrete inputs. -/

/-- A configured environment. -/
def scenarioEnv : Env := ⟨some "owner@example.com", some "app-password", none⟩

/-- The text fields of the end-to-end scenario. -/
def scenarioBody : Body :=
  ⟨some "Jane Doe", some "555-0100", some "jane@example.com", some "Inquiry", some "Hello"⟩

/-- The 10 KB part `resume.pdf` of the end-to-end scenario. -/
def scenarioUpload : Upload := ⟨"resume.pdf", "application/pdf", 10240⟩

/-- The same part once stored. -/
def scenarioFile : StoredFile :=
  ⟨"resume.pdf", "application/pdf", 10240, "1700000000000-250000000-resume.pdf",
   "/srv/uploads/1700000000000-250000000-resume.pdf"⟩

/-- A PDF part one byte over the size limit. -/
def oversizedUpload : Upload := ⟨"resume.pdf", "application/pdf", 5242881⟩

/-- The part `resume.docx` of the end-to-end scenario. -/
def wordUpload : Upload := ⟨"resume.docx", "application/msword", 10240⟩

/-- A mail transport that accepts every message. -/
def sendOk : MailOptions → Except JsError SentInfo :=
  fun _ => Except.ok ⟨"250 2.0.0 OK"⟩

/-- A mail transport whose login is refused. -/
def sendRefused : MailOptions → Except JsError SentInfo :=
  fun _ => Except.error ⟨"Invalid login", "Error: Invalid login\n    at SMTPConnection._formatError"⟩

/-- The same transport with the stack of the thrown error blanked. -/
def withoutStack (send : MailOptions → Except JsError SentInfo) :
    MailOptions → Except JsError SentInfo :=
  fun opts =>
    match send opts with
    | Except.ok info => Except.ok info
    | Except.error error => Except.error { error with stack := "" }

/-- The number denoted by a string of decimal digits, most significant first. -/
def readDecimal (l : List Char) : ℕ :=
  l.foldl (fun acc c => 10 * acc + (c.toNat - 48)) 0

/-- The run ends in a JSON object response that has a `message` field. -/
def jsonWithMessage (fx : List Effect) : Bool :=
  match response fx with
  | none => false
  | some (_, body) => body.any (fun field => field.1 == "message")

/-! ## Start-up gate -/

/-- C10: start-up stops with exit code 1, before any middleware or route is
registered and before listening, exactly when `EMAIL_USER` or `EMAIL_PASS` is
unset or empty; otherwise the whole start-up sequence runs and ends listening. -/
theorem startup_gate (env : Env) :
    (startup env =
        [StartupStep.consoleError "Missing required environment variables. Check your .env file.",
         StartupStep.exit 1] ↔
      (env.EMAIL_USER = none ∨ env.EMAIL_USER = some "") ∨
        (env.EMAIL_PASS = none ∨ env.EMAIL_PASS = some "")) ∧
    (startup env =
        [StartupStep.useCors, StartupStep.useUrlencoded, StartupStep.useJson,
         StartupStep.ensureUploadDir, StartupStep.post "/api/submit-form",
         StartupStep.listen (PORT env)] ↔
      ¬ ((env.EMAIL_USER = none ∨ env.EMAIL_USER = some "") ∨
        (env.EMAIL_PASS = none ∨ env.EMAIL_PASS = some ""))) := by
  rcases env with ⟨user, pass, port⟩
  cases user with
  | none => simp [startup, truthy]
  | some u =>
    cases pass with
    | none => simp [startup, truthy]
    | some p =>
      by_cases hu : u = "" <;> by_cases hp : p = "" <;> simp [startup, truthy, hu, hp]

/-! ## Handler -/

/-- C1 as stated fails: on a request with no file and no parsed body, so that
`req.body` is `undefined`, the destructuring on line 75 throws before the file
check of line 78 is reached and the handler answers 500, not 400. -/
theorem submitForm_missing_body :
    submitForm scenarioEnv sendOk none none =
      [Effect.consoleError
         "Error: Cannot destructure property \x27name\x27 of \x27req.body\x27 as it is undefined.",
       Effect.respond 500
         [("message", "Server error"),
          ("error",
           "Cannot destructure property \x27name\x27 of \x27req.body\x27 as it is undefined.")]] ∧
    response (submitForm scenarioEnv sendOk none none) ≠
      some (400, [("message", "Resume file is required")]) ∧
    handleRequest scenarioEnv "/srv" sendOk 1700000000000 (1 / 4) ⟨none, none, none⟩ =
      submitForm scenarioEnv sendOk none none := by
  refine ⟨by decide, by decide, by rfl⟩

/-- C1, amended: when `req.file` is absent and `req.body` is an object, the
handler answers 400 with body `{ message: "Resume file is required" }`,
whatever the text fields, the environment and the mail transport are; and
whenever `req.file` is absent, `req.body` being an object or not, `sendMail` is
never called. -/
theorem submitForm_missing_resume (env : Env) (send : MailOptions → Except JsError SentInfo)
    (body : Body) :
    submitForm env send (some body) none =
        [Effect.respond 400 [("message", "Resume file is required")]] ∧
    response (submitForm env send (some body) none) =
        some (400, [("message", "Resume file is required")]) ∧
    (∀ parsed : Option Body, sendCount (submitForm env send parsed none) = 0) ∧
    (∀ (parsed : Option Body) opts, Effect.sendMail opts ∉ submitForm env send parsed none) := by
  refine ⟨rfl, rfl, ?_, ?_⟩
  · intro parsed
    cases parsed <;> rfl
  · intro parsed opts h
    cases parsed <;> simp [submitForm] at h

/-- C4: when `req.file` is present and the send succeeds, `sendMail` is called
exactly once, from and to `EMAIL_USER`, with subject `New Submission: ` followed
by the subject field, the four-line text built from name, number, email and
message, and the stored file as the only attachment under its original name;
the answer is 200 with the success message.  A text field that was not sent is
rendered as `undefined`. -/
theorem submitForm_success (env : Env) (send : MailOptions → Except JsError SentInfo)
    (body : Body) (resume : StoredFile) (info : SentInfo)
    (h : send (mailOptions env body resume) = Except.ok info) :
    submitForm env send (some body) (some resume) =
      [Effect.consoleLog "Received Form:",
       Effect.sendMail
         { from_ := env.EMAIL_USER
           to_ := env.EMAIL_USER
           subject := "New Submission: " ++ render body.subject
           text := "Name: " ++ render body.name ++ "\nNumber: " ++ render body.number ++
             "\nEmail: " ++ render body.email ++ "\nMessage: " ++ render body.message
           attachments := [⟨resume.originalname, resume.path⟩] },
       Effect.consoleLog ("Email sent: " ++ info.response),
       Effect.respond 200 [("message", "Form submitted and email sent successfully!")]] ∧
    sendCount (submitForm env send (some body) (some resume)) = 1 ∧
    response (submitForm env send (some body) (some resume)) =
      some (200, [("message", "Form submitted and email sent successfully!")]) ∧
    render none = "undefined" ∧ ∀ s, render (some s) = s := by
  have hfx : submitForm env send (some body) (some resume) =
      [Effect.consoleLog "Received Form:", Effect.sendMail (mailOptions env body resume),
       Effect.consoleLog ("Email sent: " ++ info.response),
       Effect.respond 200 [("message", "Form submitted and email sent successfully!")]] := by
    simp [submitForm, h]
  rw [hfx]
  exact ⟨rfl, rfl, rfl, rfl, fun _ => rfl⟩

/-- C4 at the end-to-end scenario: one mail with subject `New Submission: Inquiry`
and the file attached as `resume.pdf`, then 200. -/
theorem submitForm_success_witness :
    sendOk (mailOptions scenarioEnv scenarioBody scenarioFile) = Except.ok ⟨"250 2.0.0 OK"⟩ ∧
    submitForm scenarioEnv sendOk (some scenarioBody) (some scenarioFile) =
      [Effect.consoleLog "Received Form:",
       Effect.sendMail
         ⟨some "owner@example.com", some "owner@example.com", "New Submission: Inquiry",
          "Name: Jane Doe\nNumber: 555-0100\nEmail: jane@example.com\nMessage: Hello",
          [⟨"resume.pdf", "/srv/uploads/1700000000000-250000000-resume.pdf"⟩]⟩,
       Effect.consoleLog "Email sent: 250 2.0.0 OK",
       Effect.respond 200 [("message", "Form submitted and email sent successfully!")]] := by
  refine ⟨rfl, ?_⟩
  rw [(submitForm_success scenarioEnv sendOk scenarioBody scenarioFile ⟨"250 2.0.0 OK"⟩ rfl).1]
  decide

/-- C5: when `req.file` is present and the send throws an error with message
`m`, the handler answers 500 with body `{ message: "Server error", error: m }`,
writes no success response, and deletes nothing: the files under `uploads/`
are the same after the run as before. -/
theorem submitForm_send_failure (env : Env) (send : MailOptions → Except JsError SentInfo)
    (body : Body) (resume : StoredFile) (error : JsError)
    (h : send (mailOptions env body resume) = Except.error error) :
    submitForm env send (some body) (some resume) =
      [Effect.consoleLog "Received Form:", Effect.sendMail (mailOptions env body resume),
       Effect.consoleError ("Error: " ++ error.message),
       Effect.respond 500 [("message", "Server error"), ("error", error.message)]] ∧
    response (submitForm env send (some body) (some resume)) =
      some (500, [("message", "Server error"), ("error", error.message)]) ∧
    (∀ payload, Effect.respond 200 payload ∉ submitForm env send (some body) (some resume)) ∧
    (∀ path, Effect.unlink path ∉ submitForm env send (some body) (some resume)) ∧
    (∀ disk, diskAfter disk (submitForm env send (some body) (some resume)) = disk) := by
  have hfx : submitForm env send (some body) (some resume) =
      [Effect.consoleLog "Received Form:", Effect.sendMail (mailOptions env body resume),
       Effect.consoleError ("Error: " ++ error.message),
       Effect.respond 500 [("message", "Server error"), ("error", error.message)]] := by
    simp [submitForm, h]
  rw [hfx]
  refine ⟨rfl, rfl, ?_, ?_, ?_⟩
  · intro payload hmem
    simp at hmem
  · intro path hmem
    simp at hmem
  · intro disk
    rfl

/-- C5 at the scenario of a refused login: 500 with the gateway's error text,
and the stored file is still on disk. -/
theorem submitForm_send_failure_witness :
    sendRefused (mailOptions scenarioEnv scenarioBody scenarioFile) =
      Except.error ⟨"Invalid login", "Error: Invalid login\n    at SMTPConnection._formatError"⟩ ∧
    response (submitForm scenarioEnv sendRefused (some scenarioBody) (some scenarioFile)) =
      some (500, [("message", "Server error"), ("error", "Invalid login")]) ∧
    diskAfter [scenarioFile.path]
      (submitForm scenarioEnv sendRefused (some scenarioBody) (some scenarioFile)) = [scenarioFile.path] :=
  have h := submitForm_send_failure scenarioEnv sendRefused scenarioBody scenarioFile
    ⟨"Invalid login", "Error: Invalid login\n    at SMTPConnection._formatError"⟩ rfl
  ⟨rfl, h.2.1, h.2.2.2.2 [scenarioFile.path]⟩

/-! ## Upload filter -/

/-- The embedding of `startsWith` says that the string is the prefix followed
by some remainder. -/
theorem startsWith_iff (s pre : String) :
    startsWith s pre = true ↔ ∃ rest : String, s = pre ++ rest := by
  unfold startsWith
  rw [ List.isPrefixOf_iff_prefix]
  constructor
  · rintro ⟨t, ht⟩
    refine ⟨String.mk t, ?_⟩
    apply String.ext
    simpa using ht.symm
  · rintro ⟨rest, rfl⟩
    exact ⟨rest.toList, by simp⟩

/-- C2 as stated fails: a part whose declared type is `application/pdfx`, which
is not the PDF type, is accepted by the filter. -/
theorem fileFilter_accepts_other_type :
    ("application/pdfx" : String) ≠ "application/pdf" ∧
    fileFilter ⟨"resume.exe", "application/pdfx", 10240⟩ = Except.ok true := by
  decide

/-- C2, amended: the filter accepts a part exactly when its declared type
starts with `application/pdf`, and rejects every other part with the error
`Only PDF files are allowed!`; the PDF type itself is accepted. -/
theorem fileFilter_spec (file : Upload) :
    (fileFilter file = Except.ok true ↔
      ∃ rest : String, file.mimetype = "application/pdf" ++ rest) ∧
    (fileFilter file = Except.error "Only PDF files are allowed!" ↔
      ¬ ∃ rest : String, file.mimetype = "application/pdf" ++ rest) ∧
    fileFilter ⟨file.originalname, "application/pdf", file.size⟩ = Except.ok true := by
  rw [← startsWith_iff]
  refine ⟨?_, ?_, by rfl⟩ <;>
    cases h : startsWith file.mimetype "application/pdf" <;> simp [fileFilter, h]

/-! ## CORS -/

/-- C3 as stated fails: an `Origin` header that is present but empty is neither
absent nor an allowed origin, and the callback permits it. -/
theorem corsOrigin_permits_empty :
    (some "" : Option String) ≠ none ∧ "" ∉ allowedOrigins ∧
    corsOrigin (some "") = Except.ok true := by
  decide

/-- C3, amended: the callback permits the request exactly when the `Origin`
header is absent, empty, or one of the allowed origins, which is the single
origin `https://www.modvisorconsultants.com`; for every other value it yields
the error `CORS not allowed for this origin`, and then nothing after the CORS
middleware runs: no file is written, no mail is sent, no response is written by
the handler. -/
theorem corsOrigin_spec (origin : Option String) :
    allowedOrigins = ["https://www.modvisorconsultants.com"] ∧
    (corsOrigin origin = Except.ok true ↔
      origin = none ∨ origin = some "" ∨ ∃ o ∈ allowedOrigins, origin = some o) ∧
    (corsOrigin origin = Except.error "CORS not allowed for this origin" ↔
      ¬ (origin = none ∨ origin = some "" ∨ ∃ o ∈ allowedOrigins, origin = some o)) ∧
    (corsOrigin origin = Except.ok true ∨
      ∀ env dirname send now random body resume,
        handleRequest env dirname send now random ⟨origin, body, resume⟩ =
          [Effect.next "CORS not allowed for this origin"]) := by
  refine ⟨rfl, ?_, ?_, ?_⟩
  · cases origin with
    | none => simp [corsOrigin, truthy]
    | some o =>
      by_cases h0 : o = "" <;>
        by_cases h1 : o = "https://www.modvisorconsultants.com" <;>
        simp [corsOrigin, truthy, includes, allowedOrigins, h0, h1]
  · cases origin with
    | none => simp [corsOrigin, truthy]
    | some o =>
      by_cases h0 : o = "" <;>
        by_cases h1 : o = "https://www.modvisorconsultants.com" <;>
        simp [corsOrigin, truthy, includes, allowedOrigins, h0, h1]
  · cases origin with
    | none => exact Or.inl rfl
    | some o =>
      by_cases h0 : o = ""
      · subst h0; exact Or.inl rfl
      · by_cases h1 : o = "https://www.modvisorconsultants.com"
        · subst h1; exact Or.inl rfl
        · right
          intro env dirname send now random body resume
          simp [handleRequest, corsOrigin, truthy, includes, allowedOrigins, h0, h1]

/-! ## Upload stage and the chain -/

/-- The upload stage either fails with an error, or yields no file for a
request without a part, or yields the part stored under the generated name. -/
theorem single_cases (dirname : String) (now : ℕ) (random : ℚ) (part : Option Upload) :
    (part = none ∧ single dirname now random part = ([], Except.ok none)) ∨
    (∃ file, part = some file ∧ fileFilter file = Except.error "Only PDF files are allowed!" ∧
      single dirname now random part = ([], Except.error "Only PDF files are allowed!")) ∨
    (∃ file, part = some file ∧ fileFilter file = Except.ok true ∧ fileSize < file.size ∧
      single dirname now random part =
        ([Effect.writeFile (uploadPath dirname ++ "/" ++ filename now random file.originalname),
          Effect.unlink (uploadPath dirname ++ "/" ++ filename now random file.originalname)],
         Except.error "File too large")) ∨
    (∃ file, part = some file ∧ fileFilter file = Except.ok true ∧ file.size ≤ fileSize ∧
      single dirname now random part =
        ([Effect.writeFile (uploadPath dirname ++ "/" ++ filename now random file.originalname)],
         Except.ok (some
          { originalname := file.originalname, mimetype := file.mimetype, size := file.size,
            filename := filename now random file.originalname,
            path := uploadPath dirname ++ "/" ++ filename now random file.originalname }))) := by
  cases part with
  | none => exact Or.inl ⟨rfl, rfl⟩
  | some file =>
    right
    by_cases hf : startsWith file.mimetype "application/pdf" = true
    · have hfilter : fileFilter file = Except.ok true := by simp [fileFilter, hf]
      by_cases hs : file.size ≤ fileSize
      · right; right
        exact ⟨file, rfl, hfilter, hs, by simp [single, hfilter, withinLimit, hs]⟩
      · right; left
        exact ⟨file, rfl, hfilter, by omega, by simp [single, hfilter, withinLimit, hs]⟩
    · left
      have hfilter : fileFilter file = Except.error "Only PDF files are allowed!" := by
        simp [fileFilter, hf]
      exact ⟨file, rfl, hfilter, by simp [single, hfilter]⟩

/-- C6: the configured limit is 5 × 1024 × 1024 = 5242880 bytes; a part is over
the limit exactly when its size exceeds 5242880, so a part of exactly 5242880
bytes is within it; a part over the limit makes the upload stage fail, the
handler never runs for it (no response by the handler, no mail), and every
file that reaches the handler has size at most 5242880. -/
theorem fileSize_limit :
    fileSize = 5242880 ∧
    withinLimit fileSize 5242880 = true ∧
    (∀ size, withinLimit fileSize size = false ↔ 5242880 < size) ∧
    (∀ dirname now random file, 5242880 < file.size →
      (∃ fx err, single dirname now random (some file) = (fx, Except.error err)) ∧
      ∀ env send origin body,
        response (handleRequest env dirname send now random ⟨origin, body, some file⟩) = none ∧
        sendCount (handleRequest env dirname send now random ⟨origin, body, some file⟩) = 0) ∧
    (∀ dirname now random part fx stored,
      single dirname now random part = (fx, Except.ok (some stored)) → stored.size ≤ 5242880) := by
  have hsize : fileSize = 5242880 := by decide
  refine ⟨hsize, by decide, ?_, ?_, ?_⟩
  · intro size
    simp [withinLimit, hsize]
  · intro dirname now random file hbig
    have hcases := single_cases dirname now random (some file)
    rw [hsize] at hcases
    rcases hcases with ⟨h, -⟩ | ⟨f, hf, -, hs⟩ | ⟨f, hf, -, -, hs⟩ | ⟨f, hf, -, hle, -⟩
    · cases h
    · refine ⟨⟨_, _, hs⟩, ?_⟩
      intro env send origin body
      cases hc : corsOrigin origin <;> simp [handleRequest, hc, hs, response, sendCount]
    · refine ⟨⟨_, _, hs⟩, ?_⟩
      intro env send origin body
      cases hc : corsOrigin origin <;> simp [handleRequest, hc, hs, response, sendCount]
    · cases hf
      omega
  · intro dirname now random part fx stored h
    have hcases := single_cases dirname now random part
    rw [hsize] at hcases
    rcases hcases with ⟨-, hs⟩ | ⟨f, -, -, hs⟩ | ⟨f, -, -, -, hs⟩ | ⟨f, -, -, hle, hs⟩
    · rw [hs] at h; cases h
    · rw [hs] at h; cases h
    · rw [hs] at h; cases h
    · rw [hs] at h
      cases h
      exact hle

/-- C6 at a PDF part of 5242881 bytes: the chain hands an error to the
framework, the handler writes no response and sends no mail. -/
theorem fileSize_limit_witness :
    5242880 < oversizedUpload.size ∧
    response (handleRequest scenarioEnv "/srv" sendOk 1700000000000 (1 / 4)
      ⟨none, some scenarioBody, some oversizedUpload⟩) = none ∧
    sendCount (handleRequest scenarioEnv "/srv" sendOk 1700000000000 (1 / 4)
      ⟨none, some scenarioBody, some oversizedUpload⟩) = 0 :=
  ⟨by decide,
   (fileSize_limit.2.2.2.1 "/srv" 1700000000000 (1 / 4) oversizedUpload (by decide)).2
     scenarioEnv sendOk none (some scenarioBody)⟩

/-! ## Error outcomes -/

/-- C7 as stated fails: for a rejected origin, for a part that is not a PDF and
for an oversized part the run ends with the error handed to the framework and
the program writes no JSON response at all. -/
theorem error_outcomes_without_json :
    (handleRequest scenarioEnv "/srv" sendOk 1700000000000 (1 / 4)
        ⟨some "https://evil.example", some scenarioBody, some scenarioUpload⟩ =
        [Effect.next "CORS not allowed for this origin"] ∧
      jsonWithMessage (handleRequest scenarioEnv "/srv" sendOk 1700000000000 (1 / 4)
        ⟨some "https://evil.example", some scenarioBody, some scenarioUpload⟩) = false) ∧
    (handleRequest scenarioEnv "/srv" sendOk 1700000000000 (1 / 4)
        ⟨none, some scenarioBody, some wordUpload⟩ = [Effect.next "Only PDF files are allowed!"] ∧
      jsonWithMessage (handleRequest scenarioEnv "/srv" sendOk 1700000000000 (1 / 4)
        ⟨none, some scenarioBody, some wordUpload⟩) = false) ∧
    (response (handleRequest scenarioEnv "/srv" sendOk 1700000000000 (1 / 4)
        ⟨none, some scenarioBody, some oversizedUpload⟩) = none ∧
      jsonWithMessage (handleRequest scenarioEnv "/srv" sendOk 1700000000000 (1 / 4)
        ⟨none, some scenarioBody, some oversizedUpload⟩) = false) := by
  refine ⟨⟨?_, ?_⟩, ⟨?_, ?_⟩, ⟨?_, ?_⟩⟩ <;> rfl

/-- C7, amended: the only responses the program writes are the three JSON
objects of the handler, each with a `message` field: 200 with the success
message, 400 for a missing resume file, and 500 with `message` and the message
string of the error thrown in the handler under `error` (the error of the mail
send, or the destructuring error when `req.body` is `undefined`); the response
does not depend on the error's stack.  A rejected origin, a part that is not a
PDF and an oversized part are handed to the framework as errors and the program
writes no response for them. -/
theorem error_outcomes (env : Env) (dirname : String)
    (send : MailOptions → Except JsError SentInfo) (now : ℕ) (random : ℚ) (req : Request) :
    (response (handleRequest env dirname send now random req) = none ∨
      response (handleRequest env dirname send now random req) =
        some (200, [("message", "Form submitted and email sent successfully!")]) ∨
      response (handleRequest env dirname send now random req) =
        some (400, [("message", "Resume file is required")]) ∨
      ∃ error, (error = destructureError ∨ ∃ opts, send opts = Except.error error) ∧
        response (handleRequest env dirname send now random req) =
          some (500, [("message", "Server error"), ("error", error.message)])) ∧
    (response (handleRequest env dirname send now random req) = none ∨
      jsonWithMessage (handleRequest env dirname send now random req) = true) ∧
    response (handleRequest env dirname (withoutStack send) now random req) =
      response (handleRequest env dirname send now random req) ∧
    ((corsOrigin req.origin = Except.error "CORS not allowed for this origin" ∨
        ∃ file, req.resume = some file ∧
          (fileFilter file = Except.error "Only PDF files are allowed!" ∨
            fileSize < file.size)) →
      response (handleRequest env dirname send now random req) = none ∧
      ∃ err, (handleRequest env dirname send now random req).getLast? = some (Effect.next err)) := by
  have key : ∀ (body : Option Body) (file : Option StoredFile),
      (response (submitForm env send body file) =
          some (200, [("message", "Form submitted and email sent successfully!")]) ∨
        response (submitForm env send body file) =
          some (400, [("message", "Resume file is required")]) ∨
        ∃ error, (error = destructureError ∨ ∃ opts, send opts = Except.error error) ∧
          response (submitForm env send body file) =
            some (500, [("message", "Server error"), ("error", error.message)])) ∧
      response (submitForm env (withoutStack send) body file) =
        response (submitForm env send body file) := by
    intro body file
    cases body with
    | none => exact ⟨Or.inr (Or.inr ⟨destructureError, Or.inl rfl, rfl⟩), rfl⟩
    | some body =>
      cases file with
      | none => exact ⟨Or.inr (Or.inl rfl), rfl⟩
      | some resume =>
        cases hs : send (mailOptions env body resume) with
        | ok info =>
          refine ⟨Or.inl ?_, ?_⟩ <;> simp [submitForm, withoutStack, hs, response]
        | error error =>
          refine ⟨Or.inr (Or.inr ⟨error, Or.inr ⟨_, hs⟩, ?_⟩), ?_⟩ <;>
            simp [submitForm, withoutStack, hs, response]
  have hjson : ∀ fx : List Effect,
      (response fx = none ∨
        response fx = some (200, [("message", "Form submitted and email sent successfully!")]) ∨
        response fx = some (400, [("message", "Resume file is required")]) ∨
        ∃ error, (error = destructureError ∨ ∃ opts, send opts = Except.error error) ∧
          response fx = some (500, [("message", "Server error"), ("error", error.message)])) →
      (response fx = none ∨ jsonWithMessage fx = true) := by
    intro fx h
    rcases h with h | h | h | ⟨error, -, h⟩
    · exact Or.inl h
    · exact Or.inr (by simp [jsonWithMessage, h])
    · exact Or.inr (by simp [jsonWithMessage, h])
    · exact Or.inr (by simp [jsonWithMessage, h])
  rcases req with ⟨origin, body, resume⟩
  cases hc : corsOrigin origin with
  | error err =>
    have hfx : ∀ s, handleRequest env dirname s now random ⟨origin, body, resume⟩ =
        [Effect.next err] := by
      intro s
      simp [handleRequest, hc]
    rw [hfx, hfx]
    exact ⟨Or.inl rfl, Or.inl rfl, rfl, fun _ => ⟨rfl, err, rfl⟩⟩
  | ok flag =>
    rcases single_cases dirname now random resume with
      ⟨hp, hs⟩ | ⟨f, hf, hflt, hs⟩ | ⟨f, hf, hflt, hbig, hs⟩ | ⟨f, hf, hflt, hle, hs⟩
    · have hfx : ∀ s, handleRequest env dirname s now random ⟨origin, body, resume⟩ =
          submitForm env s (reqBody ⟨origin, body, resume⟩) none := by
        intro s
        simp [handleRequest, hc, hs]
      rw [hfx, hfx]
      refine ⟨Or.inr (key _ none).1, hjson _ (Or.inr (key _ none).1), (key _ none).2, ?_⟩
      rintro (h | ⟨file, hfile, -⟩)
      · simp [hc] at h
      · simp [hp] at hfile
    · have hfx : ∀ s, handleRequest env dirname s now random ⟨origin, body, resume⟩ =
          [Effect.next "Only PDF files are allowed!"] := by
        intro s
        simp [handleRequest, hc, hs]
      rw [hfx, hfx]
      exact ⟨Or.inl rfl, Or.inl rfl, rfl, fun _ => ⟨rfl, _, rfl⟩⟩
    · have hfx : ∀ s, handleRequest env dirname s now random ⟨origin, body, resume⟩ =
          [Effect.writeFile (uploadPath dirname ++ "/" ++ filename now random f.originalname),
           Effect.unlink (uploadPath dirname ++ "/" ++ filename now random f.originalname),
           Effect.next "File too large"] := by
        intro s
        simp [handleRequest, hc, hs]
      rw [hfx, hfx]
      exact ⟨Or.inl rfl, Or.inl rfl, rfl, fun _ => ⟨rfl, _, rfl⟩⟩
    · have hfx : ∀ s, response (handleRequest env dirname s now random ⟨origin, body, resume⟩) =
          response (submitForm env s (reqBody ⟨origin, body, resume⟩) (some
            { originalname := f.originalname, mimetype := f.mimetype, size := f.size,
              filename := filename now random f.originalname,
              path := uploadPath dirname ++ "/" ++ filename now random f.originalname })) := by
        intro s
        simp [handleRequest, hc, hs, response]
      have hj := hjson (handleRequest env dirname send now random ⟨origin, body, resume⟩)
      rw [hfx] at hj
      rw [hfx, hfx]
      refine ⟨Or.inr (key _ _).1, hj (Or.inr (key _ _).1), (key _ _).2, ?_⟩
      rintro (h | ⟨file, hfile, h | h⟩)
      · simp [hc] at h
      · rw [hf] at hfile
        cases hfile
        rw [hflt] at h
        cases h
      · rw [hf] at hfile
        cases hfile
        omega

/-- C7 amended, at the scenario of a part that is not a PDF: the error goes to
the framework and the program writes no response. -/
theorem error_outcomes_witness :
    fileFilter wordUpload = Except.error "Only PDF files are allowed!" ∧
    response (handleRequest scenarioEnv "/srv" sendOk 1700000000000 (1 / 4)
      ⟨none, some scenarioBody, some wordUpload⟩) = none :=
  ⟨by rfl,
   ((error_outcomes scenarioEnv "/srv" sendOk 1700000000000 (1 / 4)
      ⟨none, some scenarioBody, some wordUpload⟩).2.2.2
      (Or.inr ⟨wordUpload, rfl, Or.inl (by rfl)⟩)).1⟩

/-! ## Decimal rendering -/

/-- A decimal digit character reads back as its digit and is not a dash. -/
theorem digitChar_value (k : ℕ) (h : k < 10) :
    (Nat.digitChar k).toNat - 48 = k ∧ Nat.digitChar k ≠ '-' := by
  interval_cases k <;> exact ⟨by rfl, by decide⟩

/-- Reading a digit string extended by one character on the right. -/
theorem readDecimal_snoc (l : List Char) (c : Char) :
    readDecimal (l ++ [c]) = 10 * readDecimal l + (c.toNat - 48) := by
  simp [readDecimal, List.foldl_append]

/-- With enough fuel the digit loop of the standard library puts in front of
the accumulator a dash-free string that reads back as the number. -/
theorem toDigitsCore_reads (fuel : ℕ) :
    ∀ (n : ℕ) (ds : List Char), n < fuel →
      ∃ l, Nat.toDigitsCore 10 fuel n ds = l ++ ds ∧ readDecimal l = n ∧ ∀ c ∈ l, c ≠ '-' := by
  induction fuel with
  | zero => intro n ds h; omega
  | succ fuel ih =>
    intro n ds h
    have hd := digitChar_value (n % 10) (Nat.mod_lt _ (by norm_num))
    by_cases h0 : n / 10 = 0
    · refine ⟨[Nat.digitChar (n % 10)], by simp [Nat.toDigitsCore, h0], ?_, ?_⟩
      · have : readDecimal [Nat.digitChar (n % 10)] = (Nat.digitChar (n % 10)).toNat - 48 := by
          simp [readDecimal]
        rw [this, hd.1]
        omega
      · intro c hc
        simp at hc
        rw [hc]
        exact hd.2
    · obtain ⟨l, hl, hv, hc⟩ := ih (n / 10) (Nat.digitChar (n % 10) :: ds) (by omega)
      refine ⟨l ++ [Nat.digitChar (n % 10)], by simp [Nat.toDigitsCore, h0, hl], ?_, ?_⟩
      · rw [readDecimal_snoc, hv, hd.1]
        omega
      · intro c hmem
        rcases List.mem_append.1 hmem with h1 | h1
        · exact hc c h1
        · simp at h1
          rw [h1]
          exact hd.2

/-- The decimal rendering of a natural number reads back as the number and
contains no dash. -/
theorem toString_nat_reads (n : ℕ) :
    readDecimal (toString n).toList = n ∧ ∀ c ∈ (toString n).toList, c ≠ '-' := by
  obtain ⟨l, hl, hv, hc⟩ := toDigitsCore_reads (n + 1) n [] (by omega)
  have : (toString n).toList = l := by
    show (Nat.repr n).toList = l
    simp [Nat.repr, Nat.toDigits, hl, List.asString]
  rw [this]
  exact ⟨hv, hc⟩

/-- Two strings that agree and whose parts before the first dash are dash-free
agree on both sides of that dash. -/
theorem split_at_dash : ∀ (l₁ l₂ r₁ r₂ : List Char),
    (∀ c ∈ l₁, c ≠ '-') → (∀ c ∈ l₂, c ≠ '-') →
    l₁ ++ '-' :: r₁ = l₂ ++ '-' :: r₂ → l₁ = l₂ ∧ r₁ = r₂ := by
  intro l₁
  induction l₁ with
  | nil =>
    intro l₂ r₁ r₂ _ h₂ h
    cases l₂ with
    | nil => simpa using h
    | cons c l₂ =>
      simp at h
      exact absurd h.1.symm (h₂ c (by simp))
  | cons a l₁ ih =>
    intro l₂ r₁ r₂ h₁ h₂ h
    cases l₂ with
    | nil =>
      simp at h
      exact absurd h.1 (h₁ a (by simp))
    | cons c l₂ =>
      simp at h
      obtain ⟨hac, hrest⟩ := h
      obtain ⟨hl, hr⟩ := ih l₂ r₁ r₂ (fun x hx => h₁ x (by simp [hx])) (fun x hx => h₂ x (by simp [hx])) hrest
      exact ⟨by rw [hac, hl], hr⟩

/-! ## Rounding on line 47 -/

/-- Rounding to nearest stays between the floor and the floor plus one. -/
theorem roundTiesEven_bounds (q : ℚ) : ⌊q⌋ ≤ roundTiesEven q ∧ roundTiesEven q ≤ ⌊q⌋ + 1 := by
  unfold roundTiesEven
  split_ifs <;> constructor <;> omega

/-- Below `10 ^ 9` the spacing of binary64 values is at most `2 ^ (-23)`. -/
theorem ulpExp_le (q : ℚ) (h : q < 1000000000) : ulpExp q ≤ -23 := by
  have hlog : Int.log 2 q ≤ 29 := by
    rcases le_or_lt q 0 with h0 | h0
    · rw [Int.log_of_right_le_zero 2 h0]; norm_num
    · have : Int.log 2 q < 30 := by
        rw [← Int.lt_zpow_iff_log_lt (by norm_num) h0]
        calc q < 1000000000 := h
          _ < (2 : ℚ) ^ (30 : ℤ) := by norm_num
      omega
  unfold ulpExp
  omega

/-- Rounding a value of `[0, 10 ^ 9)` to binary64 stays in `[0, 10 ^ 9]`. -/
theorem toDouble_bounds (q : ℚ) (h0 : 0 ≤ q) (h1 : q < 1000000000) :
    0 ≤ toDouble q ∧ toDouble q ≤ 1000000000 := by
  have he := ulpExp_le q h1
  have hpos : (0 : ℚ) < 2 ^ ulpExp q := by positivity
  have hb := roundTiesEven_bounds (q / 2 ^ ulpExp q)
  constructor
  · unfold toDouble
    have : 0 ≤ ⌊q / 2 ^ ulpExp q⌋ := Int.floor_nonneg.2 (by positivity)
    have : (0 : ℤ) ≤ roundTiesEven (q / 2 ^ ulpExp q) := by omega
    have : (0 : ℚ) ≤ roundTiesEven (q / 2 ^ ulpExp q) := by exact_mod_cast this
    positivity
  · obtain ⟨k, hk⟩ : ∃ k : ℕ, ulpExp q = -(k : ℤ) := ⟨(-ulpExp q).toNat, by omega⟩
    have hinv : (2 : ℚ) ^ ulpExp q * 2 ^ k = 1 := by
      rw [hk, zpow_neg, zpow_natCast]
      field_simp
    have hlt : q / 2 ^ ulpExp q < ((1000000000 * 2 ^ k : ℤ) : ℚ) := by
      rw [div_lt_iff₀ hpos]
      push_cast
      calc q < 1000000000 := h1
        _ = 1000000000 * (2 ^ ulpExp q * 2 ^ k) := by rw [hinv]; ring
        _ = 1000000000 * 2 ^ k * 2 ^ ulpExp q := by ring
    have hfl : ⌊q / 2 ^ ulpExp q⌋ < 1000000000 * 2 ^ k := Int.floor_lt.2 hlt
    have hr : roundTiesEven (q / 2 ^ ulpExp q) ≤ 1000000000 * 2 ^ k := by omega
    have hrq : (roundTiesEven (q / 2 ^ ulpExp q) : ℚ) ≤ 1000000000 * 2 ^ k := by exact_mod_cast hr
    unfold toDouble
    calc (roundTiesEven (q / 2 ^ ulpExp q) : ℚ) * 2 ^ ulpExp q
        ≤ 1000000000 * 2 ^ k * 2 ^ ulpExp q := by gcongr
      _ = 1000000000 * (2 ^ ulpExp q * 2 ^ k) := by ring
      _ = 1000000000 := by rw [hinv]; ring

/-- The rounded random component lies between 0 and `10 ^ 9`. -/
theorem round_mul_bounds (r : ℚ) (h0 : 0 ≤ r) (h1 : r < 1) :
    0 ≤ round (mul r 1000000000) ∧ round (mul r 1000000000) ≤ 1000000000 := by
  have hb := toDouble_bounds (r * 1000000000) (by positivity) (by linarith)
  unfold round mul
  constructor
  · exact Int.floor_nonneg.2 (by linarith [hb.1])
  · have : ⌊toDouble (r * 1000000000) + 1 / 2⌋ < 1000000000 + 1 := by
      rw [Int.floor_lt]
      push_cast
      linarith [hb.2]
    omega

/-- Below `10 ^ 9`, rounding to binary64 moves a value by at most `2 ^ (-23)`. -/
theorem toDouble_near (q : ℚ) (h1 : q < 1000000000) :
    q - 1 / 2 ^ 23 ≤ toDouble q ∧ toDouble q ≤ q + 1 / 2 ^ 23 := by
  have he := ulpExp_le q h1
  have hpos : (0 : ℚ) < 2 ^ ulpExp q := by positivity
  have hsmall : (2 : ℚ) ^ ulpExp q ≤ 1 / 2 ^ 23 := by
    calc (2 : ℚ) ^ ulpExp q ≤ 2 ^ (-23 : ℤ) := zpow_le_zpow_right₀ (by norm_num) he
      _ = 1 / 2 ^ 23 := by norm_num
  have hb := roundTiesEven_bounds (q / 2 ^ ulpExp q)
  have hlo : q / 2 ^ ulpExp q - 1 ≤ roundTiesEven (q / 2 ^ ulpExp q) := by
    have h1 : (⌊q / 2 ^ ulpExp q⌋ : ℚ) ≤ roundTiesEven (q / 2 ^ ulpExp q) := by exact_mod_cast hb.1
    linarith [(Int.sub_one_lt_floor (q / 2 ^ ulpExp q)).le]
  have hhi : (roundTiesEven (q / 2 ^ ulpExp q) : ℚ) ≤ q / 2 ^ ulpExp q + 1 := by
    have h1 : (roundTiesEven (q / 2 ^ ulpExp q) : ℚ) ≤ ⌊q / 2 ^ ulpExp q⌋ + 1 := by
      exact_mod_cast hb.2
    linarith [Int.floor_le (q / 2 ^ ulpExp q)]
  have hq : q / 2 ^ ulpExp q * 2 ^ ulpExp q = q := by field_simp
  unfold toDouble
  constructor
  · have := mul_le_mul_of_nonneg_right hlo hpos.le
    nlinarith
  · have := mul_le_mul_of_nonneg_right hhi hpos.le
    nlinarith

/-- The rounded random component when the product is within `2 ^ (-23)` of
a value that is less than half away from the integer `n`. -/
theorem round_mul_eq (r : ℚ) (n : ℤ) (h1 : r * 1000000000 < 1000000000)
    (hlo : (n : ℚ) - 1 / 4 ≤ r * 1000000000) (hhi : r * 1000000000 ≤ n + 1 / 4) :
    round (mul r 1000000000) = n := by
  have hb := toDouble_near (r * 1000000000) h1
  unfold round mul
  rw [Int.floor_eq_iff]
  have h23 : (1 : ℚ) / 2 ^ 23 < 1 / 4 := by norm_num
  constructor <;> linarith [hb.1, hb.2]

/-! ## Generated file names -/

/-- A non-negative integral number is rendered as its decimal digits. -/
theorem numberToString_natCast (n : ℕ) : numberToString (n : ℤ) = toString n := rfl

/-- The generated name and its characters, given the rounded random component. -/
theorem filename_toList (now : ℕ) (random : ℚ) (originalname : String) (n : ℕ)
    (h : round (mul random 1000000000) = (n : ℤ)) :
    filename now random originalname = toString now ++ "-" ++ toString n ++ "-" ++ originalname ∧
    (filename now random originalname).toList =
      (toString now).toList ++ '-' :: ((toString n).toList ++ '-' :: originalname.toList) := by
  have hname : filename now random originalname =
      toString now ++ "-" ++ toString n ++ "-" ++ originalname := by
    simp only [filename, h, numberToString_natCast]
  refine ⟨hname, ?_⟩
  rw [hname]
  simp [String.toList]

/-- Distinct natural numbers have distinct decimal renderings. -/
theorem toString_nat_injective (a b : ℕ) (h : (toString a).toList = (toString b).toList) :
    a = b := by
  rw [← (toString_nat_reads a).1, ← (toString_nat_reads b).1, h]

/-- Two generated names agree exactly when timestamp, rounded random component
and original name agree. -/
theorem filename_eq_iff_nat (now₁ now₂ : ℕ) (random₁ random₂ : ℚ) (name₁ name₂ : String)
    (n₁ n₂ : ℕ) (h₁ : round (mul random₁ 1000000000) = (n₁ : ℤ))
    (h₂ : round (mul random₂ 1000000000) = (n₂ : ℤ)) :
    filename now₁ random₁ name₁ = filename now₂ random₂ name₂ ↔
      now₁ = now₂ ∧ n₁ = n₂ ∧ name₁ = name₂ := by
  constructor
  · intro h
    have hl := congrArg String.toList h
    rw [(filename_toList now₁ random₁ name₁ n₁ h₁).2,
      (filename_toList now₂ random₂ name₂ n₂ h₂).2] at hl
    obtain ⟨ha, hrest⟩ := split_at_dash _ _ _ _ (toString_nat_reads now₁).2
      (toString_nat_reads now₂).2 hl
    obtain ⟨hb, hc⟩ := split_at_dash _ _ _ _ (toString_nat_reads n₁).2
      (toString_nat_reads n₂).2 hrest
    exact ⟨toString_nat_injective _ _ ha, toString_nat_injective _ _ hb, String.ext hc⟩
  · rintro ⟨rfl, rfl, rfl⟩
    rw [(filename_toList now₁ random₁ name₁ n₁ h₁).1, (filename_toList now₁ random₂ name₁ n₁ h₂).1]

/-- C9: for a timestamp `now`, a draw `0 ≤ random < 1` and an original name,
the generated name is the decimal timestamp, `-`, the decimal rendering of
`Math.round(random * 1e9)`, `-`, and the original name; the random component is
an integer between 0 and 10^9 inclusive, and the name ends with `-` followed by
the original name. -/
theorem filename_format (now : ℕ) (random : ℚ) (originalname : String)
    (h0 : 0 ≤ random) (h1 : random < 1) :
    0 ≤ round (mul random 1000000000) ∧ round (mul random 1000000000) ≤ 10 ^ 9 ∧
    filename now random originalname =
      toString now ++ "-" ++ toString (round (mul random 1000000000)).toNat ++ "-" ++
        originalname ∧
    ∃ front : String, filename now random originalname = front ++ ("-" ++ originalname) := by
  have hb := round_mul_bounds random h0 h1
  have hn : round (mul random 1000000000) = ((round (mul random 1000000000)).toNat : ℤ) :=
    (Int.toNat_of_nonneg hb.1).symm
  have hname := (filename_toList now random originalname _ hn).1
  refine ⟨hb.1, by simpa using hb.2, hname, ?_⟩
  exact ⟨toString now ++ "-" ++ toString (round (mul random 1000000000)).toNat, by
    rw [hname]; simp [String.append_assoc]⟩

/-- C9 at timestamp 1700000000000, draw 1/4 and `resume.pdf`: the generated name
is `1700000000000-250000000-resume.pdf`. -/
theorem filename_format_witness :
    (0 : ℚ) ≤ 1 / 4 ∧ (1 / 4 : ℚ) < 1 ∧
    round (mul (1 / 4) 1000000000) ≤ 10 ^ 9 ∧
    filename 1700000000000 (1 / 4) "resume.pdf" = "1700000000000-250000000-resume.pdf" := by
  have h := filename_format 1700000000000 (1 / 4) "resume.pdf" (by norm_num) (by norm_num)
  have hr : round (mul (1 / 4) 1000000000) = 250000000 :=
    round_mul_eq (1 / 4) 250000000 (by norm_num) (by norm_num) (by norm_num)
  refine ⟨by norm_num, by norm_num, h.2.1, ?_⟩
  rw [h.2.2.1, hr]
  decide

/-- C8 as stated fails: two invocations in the same millisecond whose draws
1/4 and 1/4 + 2^(-40) differ generate the same name for `resume.pdf`. -/
theorem filename_collision :
    (1 / 4 : ℚ) ≠ 1 / 4 + 1 / 2 ^ 40 ∧
    filename 1700000000000 (1 / 4) "resume.pdf" =
      filename 1700000000000 (1 / 4 + 1 / 2 ^ 40) "resume.pdf" := by
  refine ⟨by norm_num, ?_⟩
  have h₁ : round (mul (1 / 4) 1000000000) = ((250000000 : ℕ) : ℤ) :=
    round_mul_eq (1 / 4) 250000000 (by norm_num) (by norm_num) (by norm_num)
  have h₂ : round (mul (1 / 4 + 1 / 2 ^ 40) 1000000000) = ((250000000 : ℕ) : ℤ) :=
    round_mul_eq (1 / 4 + 1 / 2 ^ 40) 250000000 (by norm_num) (by norm_num) (by norm_num)
  exact (filename_eq_iff_nat _ _ _ _ _ _ _ _ h₁ h₂).2 ⟨rfl, rfl, rfl⟩

/-- C8, amended: two invocations of the name generator on the same original
name generate distinct names exactly when their timestamps differ or their
draws round to different integers, so names are distinct with high probability
but not always; every request that reaches the handler with a file triggers
exactly one `sendMail` call of its own, which is the case for every request
with a permitted origin whose part passes the filter and the size limit. -/
theorem filename_distinct_iff (now₁ now₂ : ℕ) (random₁ random₂ : ℚ) (originalname : String)
    (h₁ : 0 ≤ random₁ ∧ random₁ < 1) (h₂ : 0 ≤ random₂ ∧ random₂ < 1) :
    (filename now₁ random₁ originalname ≠ filename now₂ random₂ originalname ↔
      now₁ ≠ now₂ ∨ round (mul random₁ 1000000000) ≠ round (mul random₂ 1000000000)) ∧
    (∀ env send body resume,
      sendCount (submitForm env send (some body) (some resume)) = 1) ∧
    ∀ env dirname send now random origin body file,
      corsOrigin origin = Except.ok true → fileFilter file = Except.ok true →
      file.size ≤ fileSize →
      sendCount (handleRequest env dirname send now random ⟨origin, body, some file⟩) = 1 := by
  have hsend : ∀ env send body resume,
      sendCount (submitForm env send (some body) (some resume)) = 1 := by
    intro env send body resume
    cases hs : send (mailOptions env body resume) <;> simp [submitForm, hs, sendCount]
  have hb₁ := round_mul_bounds random₁ h₁.1 h₁.2
  have hb₂ := round_mul_bounds random₂ h₂.1 h₂.2
  have hn₁ := (Int.toNat_of_nonneg hb₁.1).symm
  have hn₂ := (Int.toNat_of_nonneg hb₂.1).symm
  refine ⟨?_, hsend, ?_⟩
  · rw [Ne, filename_eq_iff_nat now₁ now₂ random₁ random₂ originalname originalname _ _ hn₁ hn₂]
    constructor
    · intro h
      by_contra hcon
      push_neg at hcon
      exact h ⟨hcon.1, by rw [hcon.2], rfl⟩
    · rintro (h | h) ⟨ha, hb, -⟩
      · exact h ha
      · apply h
        rw [hn₁, hn₂, hb]
  · intro env dirname send now random origin body file hc hflt hle
    have hfx : handleRequest env dirname send now random ⟨origin, body, some file⟩ =
        Effect.writeFile (uploadPath dirname ++ "/" ++ filename now random file.originalname) ::
          submitForm env send (some (body.getD ⟨none, none, none, none, none⟩)) (some
            { originalname := file.originalname, mimetype := file.mimetype, size := file.size,
              filename := filename now random file.originalname,
              path := uploadPath dirname ++ "/" ++ filename now random file.originalname }) := by
      simp [handleRequest, hc, single, hflt, withinLimit, hle, reqBody]
    have h := hsend env send (body.getD ⟨none, none, none, none, none⟩)
      { originalname := file.originalname, mimetype := file.mimetype, size := file.size,
        filename := filename now random file.originalname,
        path := uploadPath dirname ++ "/" ++ filename now random file.originalname }
    rw [hfx]
    simpa [sendCount] using h

/-- C8 amended, at two submissions of `resume.pdf` one millisecond apart with
the same draw: the names differ. -/
theorem filename_distinct_iff_witness :
    ((0 : ℚ) ≤ 1 / 4 ∧ (1 / 4 : ℚ) < 1) ∧
    filename 1700000000000 (1 / 4) "resume.pdf" ≠ filename 1700000000001 (1 / 4) "resume.pdf" :=
  ⟨by norm_num,
   (filename_distinct_iff 1700000000000 1700000000001 (1 / 4) (1 / 4) "resume.pdf"
     (by norm_num) (by norm_num)).1.2 (Or.inl (by decide))⟩

end Modvisor
